import Mathlib

/-
  Verification of the MMRag repository workflow contract.

  Shallow embedding of the repository sources (RAG.py, app.py, ask.py,
  index.py).  External collaborators (PyPDFLoader, TextLoader,
  RecursiveCharacterTextSplitter, NomicEmbeddings, ChatOpenAI, the
  ConversationalRetrievalChain and the Qdrant server) are modelled as
  opaque function parameters; the code written in this repository is
  translated definition by definition.

  Python string primitives are modelled over the character sequence of a
  string: strLower models str.lower, strEndsWith models str.endswith,
  strTrim models str.strip (space, tab, CR, LF), basename models
  os.path.basename.
-/

set_option maxRecDepth 8000

/-- The single-quote character, used inside the two prompt instruction
strings of the repository. -/
def singleQuote : String := (Char.ofNat 39).toString

/-- Model of Python str.lower over the character sequence. -/
def strLower (s : String) : String := String.mk (s.data.map Char.toLower)

/-- Model of Python str.endswith over the character sequence. -/
def strEndsWith (s suffix : String) : Bool := suffix.data.isSuffixOf s.data

/-- Model of Python str.strip: remove leading and trailing whitespace. -/
def strTrim (s : String) : String :=
  String.mk (((s.data.dropWhile Char.isWhitespace).reverse.dropWhile Char.isWhitespace).reverse)

/-- Model of os.path.basename: the part of the path after the last slash. -/
def basename (p : String) : String :=
  String.mk ((p.data.reverse.takeWhile (fun c => !(c == '/'))).reverse)

/-- A LangChain Document as produced by the loaders: the page text plus
the metadata fields this repository reads later (metadata.get "source"
and metadata.get "page"). -/
structure Document where
  page_content : String
  source : Option String
  page : Option Int
deriving DecidableEq

/-- Payload values stored with a chunk and values of one source entry:
strings and integers. -/
inductive PValue where
  | str (s : String)
  | int (n : Int)
deriving DecidableEq

/-- JSON values appearing in HTTP response bodies: strings, integers and
the list of source entries. -/
inductive BValue where
  | str (s : String)
  | int (n : Int)
  | entries (l : List (List (String × PValue)))
deriving DecidableEq

/-- The distance metrics of qdrant_client.http.models.Distance. -/
inductive Distance where
  | cosine
  | euclid
  | dot
deriving DecidableEq

/-- VectorParams(size, distance) of the Qdrant client. -/
structure VectorParams where
  size : Nat
  distance : Distance
deriving DecidableEq

/-- State of the external Qdrant server: the named collections with their
vector configuration, and the stored points as (collection, text,
payload) triples. -/
structure QdrantState where
  collections : List (String × VectorParams)
  points : List (String × String × List (String × PValue))
deriving DecidableEq

/-- client.get_collection: succeeds exactly when a collection of that
name exists, returning its configuration. -/
def get_collection (s : QdrantState) (name : String) : Option VectorParams :=
  s.collections.lookup name

/-- client.create_collection(collection_name, vectors_config). -/
def create_collection (s : QdrantState) (name : String) (p : VectorParams) : QdrantState :=
  { s with collections := s.collections ++ [(name, p)] }

/-- RAG.py RAGSystem.connect_qdrant and index.py connect_qdrant: look up
the collection bank_documents; when the lookup raises, create the
collection with size 768 and cosine distance; when the lookup succeeds
the store is left untouched and the existing configuration is not
compared with the requested one. -/
def connect_qdrant (s : QdrantState) : QdrantState :=
  match get_collection s "bank_documents" with
  | some _ => s
  | none => create_collection s "bank_documents" ⟨768, Distance.cosine⟩

/-- One iteration of the loader loop of load_documents_from_files (the
function is identical in RAG.py and index.py).  The external PyPDFLoader
(load_and_split, one Document per page) and TextLoader (whole file read
as UTF-8, one Document) are opaque parameters that either produce
documents or raise.  Returns the documents contributed by the file and
the lines printed for it. -/
def load_one_file (pdf : String → Except String (List Document))
    (txt : String → Except String Document) (file_path : String) :
    List Document × List String :=
  let file_name := basename file_path
  if strEndsWith (strLower file_name) ".pdf" then
    match pdf file_path with
    | Except.ok pages => (pages, ["Loading PDF: " ++ file_name])
    | Except.error e =>
        ([], ["Loading PDF: " ++ file_name, "Error loading PDF " ++ file_name ++ ": " ++ e])
  else if strEndsWith (strLower file_name) ".txt" then
    match txt file_path with
    | Except.ok d => ([d], ["Loading TXT: " ++ file_name])
    | Except.error e =>
        ([], ["Loading TXT: " ++ file_name, "Error loading TXT " ++ file_name ++ ": " ++ e])
  else ([], ["Skipping unsupported file: " ++ file_name])

/-- load_documents_from_files of RAG.py and index.py: iterate over the
input paths, extending all_docs with the contribution of each file in
input order. -/
def load_documents_from_files (pdf : String → Except String (List Document))
    (txt : String → Except String Document) :
    List String → List Document × List String
  | [] => ([], [])
  | p :: rest =>
    let here := load_one_file pdf txt p
    let there := load_documents_from_files pdf txt rest
    (here.1 ++ there.1, here.2 ++ there.2)

/-- The instruction prepended to the question in RAG.py ask_question and
in app.py ask_question (the two f-strings are identical). -/
def ragInstruction : String :=
  "Answer strictly based on the documents. If answer is not available, say "
    ++ singleQuote ++ "Not found in context." ++ singleQuote

/-- The longer instruction prepended to the question in ask.py
start_chat. -/
def askInstruction : String :=
  "Answer strictly based on the documents. If answer is not available, say "
    ++ singleQuote
    ++ "Not found in context.Also never say anything out of context or anything extra.Just answer according to the Sources nothing else."
    ++ singleQuote

/-- The prompt assembled by RAG.py RAGSystem.ask_question. -/
def ask_question_prompt (question : String) : String :=
  ragInstruction ++ "\n\n" ++ question

/-- The prompt assembled by the app.py handler of POST /api/ask, applied
to the already stripped question variable. -/
def api_ask_prompt (question : String) : String :=
  ragInstruction ++ "\n\n" ++ question

/-- The prompt assembled by ask.py start_chat. -/
def start_chat_prompt (user_question : String) : String :=
  askInstruction ++ "\n\n" ++ user_question

/-- search_kwargs k of the retriever built in RAG.py initialize_qa_system. -/
def rag_search_k : Nat := 5

/-- search_kwargs k of the retriever built in app.py initialize_qa_system. -/
def app_search_k : Nat := 5

/-- search_kwargs k of the retriever built in ask.py create_qa_chain. -/
def ask_search_k : Nat := 5

/-- Metadata of one retrieved source document: the two fields read via
metadata.get by the answer formatting code. -/
structure SourceDoc where
  source : Option String
  page : Option Int
deriving DecidableEq

/-- The dictionary returned by calling the ConversationalRetrievalChain:
the fields read via result.get "answer" and result.get
"source_documents". -/
structure ChainResult where
  answer : Option String
  source_documents : Option (List SourceDoc)

/-- Body of the source formatting loop shared by RAG.py ask_question and
app.py ask_question: one entry per retrieved document, holding the
basename of the source path (or Unknown) and the page (or N/A). -/
def format_source (doc : SourceDoc) : List (String × PValue) :=
  let source_path := doc.source.getD "Unknown"
  let doc_name := if source_path == "Unknown" then "Unknown" else basename source_path
  [("source", PValue.str doc_name),
   ("page", match doc.page with
            | some n => PValue.int n
            | none => PValue.str "N/A")]

/-- The response dictionary built at the end of RAG.py ask_question and
of the app.py handler, parameterised by the question string that is
echoed back. -/
def ask_result_body (question : String) (result : ChainResult) : List (String × BValue) :=
  [("answer", BValue.str (result.answer.getD "No answer generated")),
   ("sources", BValue.entries ((result.source_documents.getD []).map format_source)),
   ("question", BValue.str question)]

/-- RAG.py RAGSystem.ask_question: wrap the question in the instruction,
invoke the chain (an opaque parameter standing for the
ConversationalRetrievalChain call) and format the result. -/
def ask_question (chain : String → ChainResult) (question : String) :
    List (String × BValue) :=
  ask_result_body question (chain (ask_question_prompt question))

/-- An HTTP response of the Flask app: status code and JSON body. -/
structure HttpResponse where
  status : Nat
  body : List (String × BValue)
deriving DecidableEq

/-- The routes registered on the Flask app in app.py, with their
methods: the three app.route decorators of the file. -/
def app_routes : List (String × String) :=
  [("/", "GET"), ("/api/ask", "POST"), ("/api/clear", "POST")]

/-- The app.py handler of POST /api/ask.  questionField stands for
data.get("question") of the request body (none when the key is absent);
qa stands for the global qa_chain, none when the QA system was not
initialized; the chain itself is opaque and answers or raises. -/
def api_ask (qa : Option (String → Except String ChainResult))
    (questionField : Option String) : HttpResponse :=
  let question := strTrim (questionField.getD "")
  if question == "" then
    ⟨400, [("error", BValue.str "Question is required")]⟩
  else
    match qa with
    | none => ⟨500, [("error", BValue.str "QA system not initialized")]⟩
    | some chain =>
      match chain (api_ask_prompt question) with
      | Except.error e => ⟨500, [("error", BValue.str e)]⟩
      | Except.ok result => ⟨200, ask_result_body question result⟩

/-- The credential environment variables the repository reads: an
os.getenv result is none when the variable is unset. -/
structure Env where
  openai_api_key : Option String
  nomic_api_key : Option String
deriving DecidableEq

/-- Python truthiness of an os.getenv result: None and the empty string
are falsy. -/
def truthy : Option String → Bool
  | none => false
  | some s => !(s == "")

/-- The credential validation of RAG.py RAGSystem.__init__. -/
def rag_init_check (env : Env) : Except String Unit :=
  if !(truthy env.openai_api_key) || !(truthy env.nomic_api_key) then
    Except.error "Missing API keys in environment variables. Please check your .env file."
  else Except.ok ()

/-- The credential validation of app.py initialize_qa_system, run before
the server starts. -/
def initialize_qa_system_check (env : Env) : Except String Unit :=
  if !(truthy env.openai_api_key) || !(truthy env.nomic_api_key) then
    Except.error "Missing API keys in environment variables"
  else Except.ok ()

/-- The only credential check in ask.py: connect_to_qdrant validates
NOMIC_API_KEY; load_api_keys reads OPENAI_API_KEY without checking it. -/
def connect_to_qdrant_check (env : Env) : Except String Unit :=
  if !(truthy env.nomic_api_key) then
    Except.error "NOMIC_API_KEY not found in environment variables. Please check your .env file."
  else Except.ok ()

/-- The credential validation performed by the ask.py main run before
the chat loop: exactly the connect_to_qdrant check. -/
def ask_main_check (env : Env) : Except String Unit := connect_to_qdrant_check env

/-- The credential validation of index.py get_nomic_embedding_model:
only NOMIC_API_KEY is read; OPENAI_API_KEY is never consulted anywhere
in index.py. -/
def get_nomic_embedding_model_check (env : Env) : Except String Unit :=
  if !(truthy env.nomic_api_key) then
    Except.error "NOMIC_API_KEY not found in environment variables. Please check your .env file."
  else Except.ok ()

/-- The credential validation performed along a whole index.py main run. -/
def index_main_check (env : Env) : Except String Unit :=
  get_nomic_embedding_model_check env

/-- Whether an Except value is a success. -/
def exceptOk {ε α : Type} : Except ε α → Bool
  | Except.ok _ => true
  | Except.error _ => false

/-- The loop of RAG.py run_interactive_chat, processing a list of input
lines.  The answering step (ask_question with its network calls) is an
opaque parameter that returns an answer or raises; a raise is caught
inside the iteration, printed, and the loop continues with the next
input. -/
def run_interactive_chat (answer : String → Except String String) :
    List String → List String
  | [] => []
  | q :: rest =>
    if strLower q == "exit" then ["Goodbye!"]
    else
      match answer q with
      | Except.ok a => ("Assistant: " ++ a) :: run_interactive_chat answer rest
      | Except.error e => ("Error: " ++ e) :: run_interactive_chat answer rest

/-- The loop of ask.py start_chat: the same exit test, but chain.run is
called with no surrounding try, so a raise propagates out of the loop
and the remaining inputs are never read. -/
def start_chat (answer : String → Except String String) :
    List String → Except String (List String)
  | [] => Except.ok []
  | q :: rest =>
    if strLower q == "exit" then Except.ok ["Goodbye!"]
    else
      match answer q with
      | Except.ok a => (start_chat answer rest).map (fun out => ("Assistant: " ++ a) :: out)
      | Except.error e => Except.error e

/-- A chunk as produced by the external splitter: page_content plus the
metadata fields index_documents reads. -/
structure Chunk where
  page_content : String
  source : Option String
  page : Option Int
deriving DecidableEq

/-- The payload built for one chunk inside index_documents (identical in
RAG.py and index.py); fresh i stands for the str(uuid4()) value drawn
for the i-th chunk of the call. -/
def chunk_metadata (fresh : Nat → String) (i : Nat) (chunk : Chunk) :
    List (String × PValue) :=
  [("source", PValue.str (chunk.source.getD "")),
   ("page", PValue.int (chunk.page.getD (-1))),
   ("chunk_id", PValue.str (fresh i))]

/-- index_documents of RAG.py and index.py: the texts list and the
metadatas list handed to add_texts. -/
def index_documents (fresh : Nat → String) (chunks : List Chunk) :
    List String × List (List (String × PValue)) :=
  (chunks.map Chunk.page_content,
   chunks.enum.map (fun ic => chunk_metadata fresh ic.1 ic.2))

/-- QdrantVectorStore.add_texts: append one point per (text, metadata)
pair to the collection. -/
def add_texts (s : QdrantState) (collection : String)
    (texts : List String) (metadatas : List (List (String × PValue))) : QdrantState :=
  { s with points := s.points ++ (texts.zip metadatas).map (fun tm => (collection, tm.1, tm.2)) }

/-- Outcome of one run of RAG.py run_indexing_workflow: the returned
flag, the final state of the external store, whether the store was
contacted at all, and the status lines printed. -/
structure IndexRun where
  success : Bool
  store : QdrantState
  connected : Bool
  log : List String

/-- RAG.py run_indexing_workflow (index.py main has the same shape):
select_files yields none when the dialog returns no files, printing its
notice; given files, load them, and stop before any store contact when
no document was loaded; otherwise chunk (external splitter, opaque),
connect to the store and index. -/
def run_indexing_workflow (pdf : String → Except String (List Document))
    (txt : String → Except String Document)
    (splitter : List Document → List Chunk) (fresh : Nat → String)
    (selected_files : Option (List String)) (store : QdrantState) : IndexRun :=
  match selected_files with
  | none => ⟨false, store, false, ["No files were selected."]⟩
  | some files =>
    if files.isEmpty then ⟨false, store, false, []⟩
    else
      let loaded := load_documents_from_files pdf txt files
      if loaded.1.isEmpty then
        ⟨false, store, false, loaded.2 ++ ["No documents were loaded successfully."]⟩
      else
        let chunks := splitter loaded.1
        let store1 := connect_qdrant store
        let idx := index_documents fresh chunks
        ⟨true, add_texts store1 "bank_documents" idx.1 idx.2, true, loaded.2⟩

/-- Looking a key up in a list that does not contain it, extended on the
right with a binding of that key, finds the new binding. -/
theorem lookup_append_single {β : Type} (l : List (String × β)) (a : String) (b : β)
    (h : l.lookup a = none) : (l ++ [(a, b)]).lookup a = some b := by
  induction l with
  | nil => simp [List.lookup]
  | cons x xs ih =>
    obtain ⟨k, v⟩ := x
    cases hx : (a == k) with
    | true =>
      exfalso
      simp only [List.lookup, hx] at h
      exact Option.noConfusion h
    | false =>
      simp only [List.lookup, hx] at h
      simp only [List.cons_append, List.lookup, hx]
      exact ih h

/-- Claim C4: connect_qdrant is idempotent: it looks the collection
bank_documents up; if the lookup fails it creates the collection with
vector size 768 and cosine distance; if the collection already exists it
performs no store mutation and does not compare the existing
configuration with the requested one, so running it twice leaves the
same store state as running it once. -/
theorem connect_qdrant_idempotent :
    ∀ s : QdrantState,
      connect_qdrant (connect_qdrant s) = connect_qdrant s ∧
      (∀ p, get_collection s "bank_documents" = some p → connect_qdrant s = s) ∧
      (get_collection s "bank_documents" = none →
        connect_qdrant s = create_collection s "bank_documents" ⟨768, Distance.cosine⟩) := by
  intro s
  have keyNone : ∀ t : QdrantState, get_collection t "bank_documents" = none →
      connect_qdrant t = create_collection t "bank_documents" ⟨768, Distance.cosine⟩ := by
    intro t ht
    simp [connect_qdrant, ht]
  have keySome : ∀ (t : QdrantState) (p : VectorParams),
      get_collection t "bank_documents" = some p → connect_qdrant t = t := by
    intro t p ht
    simp [connect_qdrant, ht]
  refine ⟨?_, fun p hp => keySome s p hp, fun hn => keyNone s hn⟩
  cases h : get_collection s "bank_documents" with
  | some p =>
    rw [keySome s p h, keySome s p h]
  | none =>
    rw [keyNone s h]
    apply keySome _ ⟨768, Distance.cosine⟩
    simp only [get_collection] at h
    simp only [get_collection, create_collection]
    exact lookup_append_single s.collections "bank_documents" ⟨768, Distance.cosine⟩ h

/-- Witness for C4: a store already holding bank_documents with a
configuration different from 768/cosine is left untouched, without any
validation of the mismatch. -/
theorem connect_qdrant_idempotent_witness :
    connect_qdrant ⟨[("bank_documents", ⟨42, Distance.euclid⟩)], []⟩ =
      ⟨[("bank_documents", ⟨42, Distance.euclid⟩)], []⟩ :=
  (connect_qdrant_idempotent ⟨[("bank_documents", ⟨42, Distance.euclid⟩)], []⟩).2.1
    ⟨42, Distance.euclid⟩ (by decide)

/-- Claim C5 counterexample: app.py registers no route named /api/upload;
the HTTP surface of the repository has no upload endpoint at all. -/
theorem no_upload_route : ¬ ("/api/upload" ∈ app_routes.map Prod.fst) := by decide

/-- Claim C5 amended: the routes of the Flask app are exactly GET /,
POST /api/ask and POST /api/clear; every POST route is one of ask or
clear, so no indexing run can be started over HTTP. -/
theorem app_route_table :
    app_routes.map Prod.fst = ["/", "/api/ask", "/api/clear"] ∧
    (∀ r ∈ app_routes, r.2 = "POST" → r.1 = "/api/ask" ∨ r.1 = "/api/clear") := by decide

/-- Claim C1 counterexample: no single fixed instruction is shared by
all delivery surfaces: the prompt built by the RAG.py class method and
the prompt built by the ask.py REPL for the same question differ,
because ask.py extends the sentinel sentence of its instruction. -/
theorem prompt_not_uniform_across_surfaces :
    ¬ ∃ instr : String,
        (∀ q, ask_question_prompt q = instr ++ "\n\n" ++ q) ∧
        (∀ q, start_chat_prompt q = instr ++ "\n\n" ++ q) := by
  rintro ⟨instr, h1, h2⟩
  have h : ask_question_prompt "Q" = start_chat_prompt "Q" := (h1 "Q").trans (h2 "Q").symm
  exact absurd h (by decide)

/-- Claim C1 amended: every surface configures its retriever with k equal
to 5 and prompts the LLM with an instruction, a blank line and the
question.  The class method and the HTTP endpoint share one fixed
instruction; the HTTP endpoint inserts the whitespace-stripped question;
the ask.py REPL uses a different, longer fixed instruction, so no single
instruction is common to all surfaces. -/
theorem prompt_shape_per_surface :
    (∀ q, ask_question_prompt q = ragInstruction ++ "\n\n" ++ q) ∧
    (∀ q, api_ask_prompt q = ragInstruction ++ "\n\n" ++ q) ∧
    (∀ q, start_chat_prompt q = askInstruction ++ "\n\n" ++ q) ∧
    ragInstruction ≠ askInstruction ∧
    (∀ chain questionField result,
      strTrim (questionField.getD "") ≠ "" →
      chain (api_ask_prompt (strTrim (questionField.getD ""))) = Except.ok result →
      api_ask (some chain) questionField
        = ⟨200, ask_result_body (strTrim (questionField.getD "")) result⟩) ∧
    rag_search_k = 5 ∧ app_search_k = 5 ∧ ask_search_k = 5 := by
  refine ⟨fun _ => rfl, fun _ => rfl, fun _ => rfl, by decide, ?_, rfl, rfl, rfl⟩
  intro chain questionField result hne hok
  have hbeq : (strTrim (questionField.getD "") == "") = false := by
    exact beq_eq_false_iff_ne.mpr hne
  simp [api_ask, hbeq, hok]

/-- Witness for C1 amended: a concrete HTTP ask with surrounding spaces
in the question field reaches the chain with the stripped prompt and
succeeds. -/
theorem prompt_shape_per_surface_witness :
    api_ask (some (fun _ => Except.ok ⟨some "A", some []⟩)) (some " what ")
      = ⟨200, ask_result_body "what" ⟨some "A", some []⟩⟩ :=
  prompt_shape_per_surface.2.2.2.2.1
    (fun _ => Except.ok ⟨some "A", some []⟩) (some " what ") ⟨some "A", some []⟩
    (by decide) rfl

/-- Claim C2 counterexample: over HTTP the echoed question is the
whitespace-stripped request field, not the literal input of the caller:
a question field of space-q-space comes back as q. -/
theorem api_ask_echoes_trimmed_question :
    (api_ask (some (fun _ => Except.ok ⟨some "A", some []⟩)) (some " q ")).body.lookup "question"
      = some (BValue.str "q") ∧
    BValue.str "q" ≠ BValue.str " q " := by
  refine ⟨rfl, by decide⟩

/-- Claim C2 amended: every successful ask returns a dictionary with
exactly the keys answer, sources and question, in that order; the class
method echoes the question argument verbatim while the HTTP endpoint
echoes the whitespace-stripped question field; sources holds one entry
per retrieved source document, without deduplication, each entry giving
the basename of the document and the page. -/
theorem ask_result_shape :
    (∀ chain q, ask_question chain q = ask_result_body q (chain (ask_question_prompt q))) ∧
    (∀ q result, (ask_result_body q result).map Prod.fst = ["answer", "sources", "question"]) ∧
    (∀ q result, (ask_result_body q result).lookup "question" = some (BValue.str q)) ∧
    (∀ q result docs, result.source_documents = some docs →
      (ask_result_body q result).lookup "sources"
        = some (BValue.entries (docs.map format_source)) ∧
      (docs.map format_source).length = docs.length) ∧
    (∀ d : SourceDoc, (format_source d).map Prod.fst = ["source", "page"]) ∧
    (∀ chain questionField result,
      strTrim (questionField.getD "") ≠ "" →
      chain (api_ask_prompt (strTrim (questionField.getD ""))) = Except.ok result →
      (api_ask (some chain) questionField).body.lookup "question"
        = some (BValue.str (strTrim (questionField.getD "")))) := by
  refine ⟨fun _ _ => rfl, fun _ _ => rfl, fun _ _ => rfl, ?_, fun _ => rfl, ?_⟩
  · intro q result docs hdocs
    refine ⟨?_, by simp⟩
    simp [ask_result_body, hdocs, List.lookup]
  · intro chain questionField result hne hok
    have hbeq : (strTrim (questionField.getD "") == "") = false :=
      beq_eq_false_iff_ne.mpr hne
    simp [api_ask, hbeq, hok, ask_result_body, List.lookup]

/-- Witness for C2 amended: concrete duplicate retrieved documents stay
duplicated in sources, and a concrete HTTP ask echoes the stripped
question. -/
theorem ask_result_shape_witness :
    ((ask_result_body "x" ⟨some "A", some [⟨some "/tmp/d.pdf", some 2⟩, ⟨some "/tmp/d.pdf", some 2⟩]⟩).lookup "sources"
      = some (BValue.entries ([⟨some "/tmp/d.pdf", some 2⟩, ⟨some "/tmp/d.pdf", some 2⟩].map format_source))) ∧
    (api_ask (some (fun _ => Except.ok ⟨some "A", some []⟩)) (some " what ")).body.lookup "question"
      = some (BValue.str "what") := by
  constructor
  · exact (ask_result_shape.2.2.2.1 "x"
      ⟨some "A", some [⟨some "/tmp/d.pdf", some 2⟩, ⟨some "/tmp/d.pdf", some 2⟩]⟩
      [⟨some "/tmp/d.pdf", some 2⟩, ⟨some "/tmp/d.pdf", some 2⟩] rfl).1
  · exact ask_result_shape.2.2.2.2.2
      (fun _ => Except.ok ⟨some "A", some []⟩) (some " what ") ⟨some "A", some []⟩
      (by decide) rfl

/-- Claim C6: POST /api/ask returns 400 when the question is blank or
missing from the request, returns 500 with an error body when the QA
system is uninitialized or the chain call raises, and on success returns
200 with a body holding exactly the keys answer, sources and question. -/
theorem api_ask_status_contract :
    (∀ qa questionField, strTrim (questionField.getD "") = "" →
      api_ask qa questionField = ⟨400, [("error", BValue.str "Question is required")]⟩) ∧
    (∀ questionField, strTrim (questionField.getD "") ≠ "" →
      api_ask none questionField
        = ⟨500, [("error", BValue.str "QA system not initialized")]⟩) ∧
    (∀ chain questionField e, strTrim (questionField.getD "") ≠ "" →
      chain (api_ask_prompt (strTrim (questionField.getD ""))) = Except.error e →
      api_ask (some chain) questionField = ⟨500, [("error", BValue.str e)]⟩) ∧
    (∀ chain questionField result, strTrim (questionField.getD "") ≠ "" →
      chain (api_ask_prompt (strTrim (questionField.getD ""))) = Except.ok result →
      (api_ask (some chain) questionField).status = 200 ∧
      (api_ask (some chain) questionField).body.map Prod.fst
        = ["answer", "sources", "question"]) := by
  refine ⟨?_, ?_, ?_, ?_⟩
  · intro qa questionField h
    have hbeq : (strTrim (questionField.getD "") == "") = true := beq_iff_eq.mpr h
    simp [api_ask, hbeq]
  · intro questionField h
    have hbeq : (strTrim (questionField.getD "") == "") = false := beq_eq_false_iff_ne.mpr h
    simp [api_ask, hbeq]
  · intro chain questionField e h herr
    have hbeq : (strTrim (questionField.getD "") == "") = false := beq_eq_false_iff_ne.mpr h
    simp [api_ask, hbeq, herr]
  · intro chain questionField result h hok
    have hbeq : (strTrim (questionField.getD "") == "") = false := beq_eq_false_iff_ne.mpr h
    simp [api_ask, hbeq, hok, ask_result_body]

/-- Witness for C6: the four branches at concrete inputs: a missing
question field, a blank field, an uninitialized QA system, a raising
chain and a successful chain. -/
theorem api_ask_status_contract_witness :
    api_ask none none = ⟨400, [("error", BValue.str "Question is required")]⟩ ∧
    api_ask (some (fun _ => Except.ok ⟨some "A", some []⟩)) (some "  ")
      = ⟨400, [("error", BValue.str "Question is required")]⟩ ∧
    api_ask none (some "hi") = ⟨500, [("error", BValue.str "QA system not initialized")]⟩ ∧
    api_ask (some (fun _ => Except.error "boom")) (some "hi")
      = ⟨500, [("error", BValue.str "boom")]⟩ ∧
    (api_ask (some (fun _ => Except.ok ⟨some "A", some []⟩)) (some "hi")).status = 200 := by
  refine ⟨?_, ?_, ?_, ?_, ?_⟩
  · exact api_ask_status_contract.1 none none (by decide)
  · exact api_ask_status_contract.1 (some (fun _ => Except.ok ⟨some "A", some []⟩))
      (some "  ") (by decide)
  · exact api_ask_status_contract.2.1 (some "hi") (by decide)
  · exact api_ask_status_contract.2.2.1 (fun _ => Except.error "boom") (some "hi") "boom"
      (by decide) rfl
  · exact (api_ask_status_contract.2.2.2 (fun _ => Except.ok ⟨some "A", some []⟩)
      (some "hi") ⟨some "A", some []⟩ (by decide) rfl).1

/-- Claim C3: the loader dispatches each path by case-insensitive
extension of its basename: a pdf file contributes the per-page documents
of its loader, a txt file contributes exactly the one document of its
loader, any other extension contributes zero documents with a logged
skip notice, a failing loader contributes zero documents with a logged
error, and the batch never aborts: the result is exactly the
concatenation, in input order, of the per-file contributions. -/
theorem load_documents_dispatch :
    ∀ (pdf : String → Except String (List Document))
      (txt : String → Except String Document) (paths : List String),
      (load_documents_from_files pdf txt paths).1
        = (paths.map (fun p => (load_one_file pdf txt p).1)).flatten ∧
      (∀ p, strEndsWith (strLower (basename p)) ".pdf" = false →
            strEndsWith (strLower (basename p)) ".txt" = false →
            load_one_file pdf txt p = ([], ["Skipping unsupported file: " ++ basename p])) ∧
      (∀ p pages, strEndsWith (strLower (basename p)) ".pdf" = true →
            pdf p = Except.ok pages → (load_one_file pdf txt p).1 = pages) ∧
      (∀ p e, strEndsWith (strLower (basename p)) ".pdf" = true →
            pdf p = Except.error e →
            load_one_file pdf txt p
              = ([], ["Loading PDF: " ++ basename p,
                      "Error loading PDF " ++ basename p ++ ": " ++ e])) ∧
      (∀ p d, strEndsWith (strLower (basename p)) ".pdf" = false →
            strEndsWith (strLower (basename p)) ".txt" = true →
            txt p = Except.ok d → (load_one_file pdf txt p).1 = [d]) ∧
      (∀ p e, strEndsWith (strLower (basename p)) ".pdf" = false →
            strEndsWith (strLower (basename p)) ".txt" = true →
            txt p = Except.error e →
            load_one_file pdf txt p
              = ([], ["Loading TXT: " ++ basename p,
                      "Error loading TXT " ++ basename p ++ ": " ++ e])) := by
  intro pdf txt paths
  refine ⟨?_, ?_, ?_, ?_, ?_, ?_⟩
  · induction paths with
    | nil => rfl
    | cons p rest ih =>
      simp only [load_documents_from_files, List.map_cons, List.flatten_cons]
      rw [ih]
  · intro p h1 h2
    simp [load_one_file, h1, h2]
  · intro p pages h1 hok
    simp [load_one_file, h1, hok]
  · intro p e h1 herr
    simp [load_one_file, h1, herr]
  · intro p d h1 h2 hok
    simp [load_one_file, h1, h2, hok]
  · intro p e h1 h2 herr
    simp [load_one_file, h1, h2, herr]

/-- Witness for C3: a batch of one readable upper-case pdf, one corrupt
pdf, one readable txt and one unsupported docx yields exactly the
documents of the files that succeeded, in input order, with the corrupt
and unsupported files logged and skipped. -/
theorem load_documents_dispatch_witness :
    (load_one_file
        (fun p => if p == "/docs/a.PDF"
          then Except.ok [⟨"pg1", some "/docs/a.PDF", some 0⟩, ⟨"pg2", some "/docs/a.PDF", some 1⟩]
          else Except.error "corrupt")
        (fun _ => Except.ok ⟨"hello", some "/docs/c.txt", none⟩)
        "/docs/d.docx"
      = ([], ["Skipping unsupported file: d.docx"])) ∧
    (load_one_file
        (fun p => if p == "/docs/a.PDF"
          then Except.ok [⟨"pg1", some "/docs/a.PDF", some 0⟩, ⟨"pg2", some "/docs/a.PDF", some 1⟩]
          else Except.error "corrupt")
        (fun _ => Except.ok ⟨"hello", some "/docs/c.txt", none⟩)
        "/docs/b.pdf"
      = ([], ["Loading PDF: b.pdf", "Error loading PDF b.pdf: corrupt"])) ∧
    ((load_one_file
        (fun p => if p == "/docs/a.PDF"
          then Except.ok [⟨"pg1", some "/docs/a.PDF", some 0⟩, ⟨"pg2", some "/docs/a.PDF", some 1⟩]
          else Except.error "corrupt")
        (fun _ => Except.ok ⟨"hello", some "/docs/c.txt", none⟩)
        "/docs/a.PDF").1
      = [⟨"pg1", some "/docs/a.PDF", some 0⟩, ⟨"pg2", some "/docs/a.PDF", some 1⟩]) := by
  refine ⟨?_, ?_, ?_⟩
  · exact (load_documents_dispatch _ _ []).2.1 "/docs/d.docx" (by decide) (by decide)
  · exact (load_documents_dispatch _ _ []).2.2.2.1 "/docs/b.pdf" "corrupt" (by decide) rfl
  · exact (load_documents_dispatch _ _ []).2.2.1 "/docs/a.PDF"
      [⟨"pg1", some "/docs/a.PDF", some 0⟩, ⟨"pg2", some "/docs/a.PDF", some 1⟩]
      (by decide) rfl

/-- Claim C7: when no files are selected or no documents are loaded, the
indexing workflow of RAG.py terminates as a graceful no-op: the flag is
false not an exception, a status line is printed, the vector store is
never contacted and its state is unchanged. -/
theorem indexing_noop_on_empty :
    ∀ (pdf : String → Except String (List Document))
      (txt : String → Except String Document)
      (splitter : List Document → List Chunk) (fresh : Nat → String)
      (store : QdrantState),
      (run_indexing_workflow pdf txt splitter fresh none store).store = store ∧
      (run_indexing_workflow pdf txt splitter fresh none store).connected = false ∧
      (run_indexing_workflow pdf txt splitter fresh none store).success = false ∧
      "No files were selected." ∈ (run_indexing_workflow pdf txt splitter fresh none store).log ∧
      (∀ files, (load_documents_from_files pdf txt files).1 = [] →
        (run_indexing_workflow pdf txt splitter fresh (some files) store).store = store ∧
        (run_indexing_workflow pdf txt splitter fresh (some files) store).connected = false ∧
        (run_indexing_workflow pdf txt splitter fresh (some files) store).success = false ∧
        (files ≠ [] →
          "No documents were loaded successfully."
            ∈ (run_indexing_workflow pdf txt splitter fresh (some files) store).log)) := by
  intro pdf txt splitter fresh store
  refine ⟨rfl, rfl, rfl, by simp [run_indexing_workflow], ?_⟩
  intro files hempty
  cases files with
  | nil =>
    refine ⟨rfl, rfl, rfl, fun hne => absurd rfl hne⟩
  | cons p rest =>
    have hne : ((p :: rest : List String).isEmpty) = false := rfl
    have hload : ((load_documents_from_files pdf txt (p :: rest)).1).isEmpty = true := by
      rw [hempty]
      rfl
    refine ⟨?_, ?_, ?_, ?_⟩ <;>
      simp [run_indexing_workflow, hne, hload]

/-- Witness for C7: a run over a single unsupported file loads zero
documents and leaves a concrete store untouched, unconnected, with the
status line printed. -/
theorem indexing_noop_on_empty_witness :
    (run_indexing_workflow (fun _ => Except.error "e") (fun _ => Except.error "e")
        (fun _ => []) (fun _ => "u") (some ["/x/report.docx"])
        ⟨[("bank_documents", ⟨768, Distance.cosine⟩)], []⟩).store
      = ⟨[("bank_documents", ⟨768, Distance.cosine⟩)], []⟩ ∧
    (run_indexing_workflow (fun _ => Except.error "e") (fun _ => Except.error "e")
        (fun _ => []) (fun _ => "u") (some ["/x/report.docx"])
        ⟨[("bank_documents", ⟨768, Distance.cosine⟩)], []⟩).connected = false ∧
    "No documents were loaded successfully."
      ∈ (run_indexing_workflow (fun _ => Except.error "e") (fun _ => Except.error "e")
        (fun _ => []) (fun _ => "u") (some ["/x/report.docx"])
        ⟨[("bank_documents", ⟨768, Distance.cosine⟩)], []⟩).log := by
  have h := (indexing_noop_on_empty (fun _ => Except.error "e") (fun _ => Except.error "e")
    (fun _ => []) (fun _ => "u") ⟨[("bank_documents", ⟨768, Distance.cosine⟩)], []⟩).2.2.2.2
    ["/x/report.docx"] (by decide)
  exact ⟨h.1, h.2.1, h.2.2.2 (by decide)⟩

/-- Claim C8 counterexample: in an environment with NOMIC_API_KEY set
and OPENAI_API_KEY missing, the index.py entry point raises no error at
all, and the ask.py entry point raises none from its own checks: only
RAG.py and app.py validate the OpenAI credential. -/
theorem index_runs_without_openai_key :
    truthy (Env.mk none (some "nomic-key")).openai_api_key = false ∧
    index_main_check ⟨none, some "nomic-key"⟩ = Except.ok () ∧
    ask_main_check ⟨none, some "nomic-key"⟩ = Except.ok () ∧
    exceptOk (rag_init_check ⟨none, some "nomic-key"⟩) = false :=
  ⟨rfl, rfl, rfl, rfl⟩

/-- Claim C8 amended: the RAG.py and app.py entry points fail fast when
either OPENAI_API_KEY or NOMIC_API_KEY is missing or empty; the ask.py
and index.py entry points check only NOMIC_API_KEY in this repository,
and index.py never reads OPENAI_API_KEY, so it runs without it. -/
theorem credential_checks_per_entry_point :
    ∀ env : Env,
      exceptOk (rag_init_check env)
        = (truthy env.openai_api_key && truthy env.nomic_api_key) ∧
      exceptOk (initialize_qa_system_check env)
        = (truthy env.openai_api_key && truthy env.nomic_api_key) ∧
      exceptOk (ask_main_check env) = truthy env.nomic_api_key ∧
      exceptOk (index_main_check env) = truthy env.nomic_api_key := by
  intro env
  cases h1 : truthy env.openai_api_key <;> cases h2 : truthy env.nomic_api_key <;>
    simp [rag_init_check, initialize_qa_system_check, ask_main_check,
      connect_to_qdrant_check, index_main_check, get_nomic_embedding_model_check,
      exceptOk, h1, h2]

/-- Claim C9 counterexample: in the ask.py REPL an error raised while
answering is not caught: the loop aborts with the error and the
remaining input lines, including the later exit, are never read. -/
theorem start_chat_error_aborts_loop :
    start_chat (fun q => if q == "boom" then Except.error "kaput" else Except.ok "fine")
      ["boom", "next", "exit"] = Except.error "kaput" := rfl

/-- Claim C9 amended: in both REPL loops an input equal to exit under
case-insensitive comparison terminates the loop and any other line is
forwarded to the answering step; in the RAG.py loop an error raised
while answering is caught within the iteration, printed, and the loop
continues with the next input, while in the ask.py loop such an error
propagates and terminates the loop. -/
theorem repl_loop_behavior :
    ∀ (answer : String → Except String String) (q : String) (rest : List String),
      (strLower q = "exit" →
        run_interactive_chat answer (q :: rest) = ["Goodbye!"] ∧
        start_chat answer (q :: rest) = Except.ok ["Goodbye!"]) ∧
      (strLower q ≠ "exit" → ∀ a, answer q = Except.ok a →
        run_interactive_chat answer (q :: rest)
          = ("Assistant: " ++ a) :: run_interactive_chat answer rest ∧
        start_chat answer (q :: rest)
          = (start_chat answer rest).map (fun out => ("Assistant: " ++ a) :: out)) ∧
      (strLower q ≠ "exit" → ∀ e, answer q = Except.error e →
        run_interactive_chat answer (q :: rest)
          = ("Error: " ++ e) :: run_interactive_chat answer rest ∧
        start_chat answer (q :: rest) = Except.error e) := by
  intro answer q rest
  refine ⟨?_, ?_, ?_⟩
  · intro h
    have hbeq : (strLower q == "exit") = true := beq_iff_eq.mpr h
    exact ⟨by simp [run_interactive_chat, hbeq], by simp [start_chat, hbeq]⟩
  · intro h a hok
    have hbeq : (strLower q == "exit") = false := beq_eq_false_iff_ne.mpr h
    exact ⟨by simp [run_interactive_chat, hbeq, hok], by simp [start_chat, hbeq, hok]⟩
  · intro h e herr
    have hbeq : (strLower q == "exit") = false := beq_eq_false_iff_ne.mpr h
    exact ⟨by simp [run_interactive_chat, hbeq, herr], by simp [start_chat, hbeq, herr]⟩

/-- Witness for C9 amended: a concrete upper-case EXIT terminates both
loops, and a concrete failing answer is printed by the RAG.py loop which
then continues over the remaining input. -/
theorem repl_loop_behavior_witness :
    run_interactive_chat (fun q => if q == "bad" then Except.error "E" else Except.ok "O")
      ["EXIT", "x"] = ["Goodbye!"] ∧
    run_interactive_chat (fun q => if q == "bad" then Except.error "E" else Except.ok "O")
      ["bad", "x"]
      = "Error: E" :: run_interactive_chat
          (fun q => if q == "bad" then Except.error "E" else Except.ok "O") ["x"] := by
  constructor
  · exact ((repl_loop_behavior (fun q => if q == "bad" then Except.error "E" else Except.ok "O")
      "EXIT" ["x"]).1 (by decide)).1
  · exact ((repl_loop_behavior (fun q => if q == "bad" then Except.error "E" else Except.ok "O")
      "bad" ["x"]).2.2 (by decide) "E" rfl).1

/-- Claim C10: each indexed chunk gets a payload with exactly the keys
source, page and chunk_id, in that order; source defaults to the empty
string and page to the integer minus one when the chunk metadata lacks
them; the chunk_id of the i-th chunk is the i-th freshly drawn UUID
string, so as long as the draws of one call are pairwise distinct the
stored chunk_ids are pairwise distinct. -/
theorem index_payload_shape :
    ∀ (fresh : Nat → String) (chunks : List Chunk),
      (index_documents fresh chunks).1 = chunks.map Chunk.page_content ∧
      (index_documents fresh chunks).2.length = chunks.length ∧
      (∀ m ∈ (index_documents fresh chunks).2,
        m.map Prod.fst = ["source", "page", "chunk_id"]) ∧
      (∀ i c, c.source = none →
        (chunk_metadata fresh i c).lookup "source" = some (PValue.str "")) ∧
      (∀ i c, c.page = none →
        (chunk_metadata fresh i c).lookup "page" = some (PValue.int (-1))) ∧
      (∀ i c, (chunk_metadata fresh i c).lookup "chunk_id" = some (PValue.str (fresh i))) ∧
      ((∀ i, i < chunks.length → ∀ j, j < chunks.length → fresh i = fresh j → i = j) →
        ((index_documents fresh chunks).2.map (fun m => m.lookup "chunk_id")).Nodup) := by
  intro fresh chunks
  refine ⟨rfl, by simp [index_documents], ?_, ?_, ?_, ?_, ?_⟩
  · intro m hm
    simp only [index_documents, List.mem_map] at hm
    obtain ⟨ic, _, rfl⟩ := hm
    rfl
  · intro i c h
    simp [chunk_metadata, h, List.lookup]
  · intro i c h
    simp [chunk_metadata, h, List.lookup]
  · intro i c
    simp [chunk_metadata, List.lookup]
  · intro hinj
    have hmap : (index_documents fresh chunks).2.map (fun m => m.lookup "chunk_id")
        = (List.range chunks.length).map (fun i => some (PValue.str (fresh i))) := by
      show (chunks.enum.map (fun ic => chunk_metadata fresh ic.1 ic.2)).map
          (fun m => m.lookup "chunk_id") = _
      rw [List.map_map]
      have hcomp : ((fun m : List (String × PValue) => m.lookup "chunk_id")
            ∘ (fun ic : Nat × Chunk => chunk_metadata fresh ic.1 ic.2))
          = (fun i => some (PValue.str (fresh i))) ∘ Prod.fst := by
        funext ic
        rfl
      rw [hcomp, ← List.map_map, List.enum_map_fst]
    rw [hmap]
    refine List.Nodup.map_on ?_ (List.nodup_range chunks.length)
    intro x hx y hy hxy
    simp only [List.mem_range] at hx hy
    simp only [Option.some.injEq, PValue.str.injEq] at hxy
    exact hinj x hx y hy hxy

/-- Witness for C10: two chunks with distinct concrete draws get
pairwise distinct chunk_ids, and a chunk without source and page
metadata gets the default empty source and page minus one. -/
theorem index_payload_shape_witness :
    ((index_documents (fun i => if i == 0 then "id0" else "id1")
        [⟨"t1", none, none⟩, ⟨"t2", some "/a.pdf", some 3⟩]).2.map
          (fun m => m.lookup "chunk_id")).Nodup ∧
    (chunk_metadata (fun i => if i == 0 then "id0" else "id1") 0
        ⟨"t1", none, none⟩).lookup "source" = some (PValue.str "") ∧
    (chunk_metadata (fun i => if i == 0 then "id0" else "id1") 0
        ⟨"t1", none, none⟩).lookup "page" = some (PValue.int (-1)) := by
  refine ⟨?_, ?_, ?_⟩
  · exact (index_payload_shape (fun i => if i == 0 then "id0" else "id1")
      [⟨"t1", none, none⟩, ⟨"t2", some "/a.pdf", some 3⟩]).2.2.2.2.2.2 (by decide)
  · exact (index_payload_shape (fun i => if i == 0 then "id0" else "id1")
      []).2.2.2.1 0 ⟨"t1", none, none⟩ rfl
  · exact (index_payload_shape (fun i => if i == 0 then "id0" else "id1")
      []).2.2.2.2.1 0 ⟨"t1", none, none⟩ rfl
